import Mathlib

/-!
Verification development for the Darwinbox HR agent repository
(`src/deploy.py` and `src/app.py`).

The repository consists of stateless HR API client functions (one HTTP POST
each), date-format utilities built on Python's `datetime.strptime` /
`strftime`, and a single-pass tool-dispatch loop mediating between a hosted
model and the client functions.  This file gives a shallow embedding of those
parts and proves properties of the embedding.

Modelling conventions, used throughout:
* JSON values are modelled by the inductive `Json`; a Python function that
  returns `json.dumps(obj)` is modelled as returning the `Json` value `obj`
  directly (serialisation is injective on these values and no claim inspects
  the serialised text).
* The single outbound HTTP POST of each client function is modelled by an
  explicit `HttpOutcome` argument describing what the network does for that
  call: a 2xx response with a decoded JSON body, an HTTP error
  (`raise_for_status` on a non-2xx response), a timeout, or any other
  exception (connection failure, JSON decode failure, ...).  Each client
  function returns a `ToolResult`: the value it would return, plus the list of
  requests it issued (URL, JSON payload, timeout in seconds).  HTTP Basic auth
  credentials are transport metadata shared by every call and are not
  recorded in `Request`.
* `datetime.strptime` with the formats `%Y-%m-%d`, `%Y-%m` and `%d-%m-%Y` is
  modelled by the parsers `parseYMD`, `parseYM`, `parseDMY`.  CPython compiles
  these formats to the regex fragments `(?P<Y>\d\d\d\d)`,
  `(?P<m>1[0-2]|0[1-9]|[1-9])` and `(?P<d>3[01]|[12]\d|0[1-9]|[1-9])`, matched
  against the whole string (trailing characters raise ValueError), followed by
  the `datetime` constructor's calendar check (1 <= year, day <= days in
  month).  The parsers below implement exactly that: a 4-digit year, a 1- or
  2-digit month with value 1..12, a 1- or 2-digit day with value 1..31, then
  the calendar check.  ASCII digits only (CPython's `\d` additionally matches
  non-ASCII decimal digits; no claim involves those).
* `strftime('%d-%m-%Y')` is modelled by `formatDMY`.  CPython delegates
  strftime to the platform C library; on the deployment platform
  (CPython/glibc) `%d` and `%m` are zero-padded to two digits, while `%Y`
  prints the year as a plain decimal number with no padding, so years below
  1000 come out with fewer than four digits.
* Python `str.strip()` is modelled by `pyStrip`, `str.capitalize()` by
  `pyCapitalize` (ASCII case mapping; all action strings in scope are ASCII),
  and `str(x)` on a scalar by `pyStr`.
-/

/-- JSON values, the data exchanged with the HR platform and the model. -/
inductive Json where
  | null : Json
  | bool (b : Bool) : Json
  | num (n : Int) : Json
  | str (s : String) : Json
  | arr (elems : List Json) : Json
  | obj (fields : List (String × Json)) : Json

/-- First-match lookup in an association list of JSON object fields
(Python dicts have unique keys, so first-match agrees with dict lookup). -/
def lookupField : List (String × Json) → String → Option Json
  | [], _ => none
  | (k, v) :: rest, key => if k = key then some v else lookupField rest key

/-- `d.get(key)` on a JSON object; `none` on non-objects. -/
def Json.getKey : Json → String → Option Json
  | .obj fs, key => lookupField fs key
  | _, _ => none

/-- The error-envelope shape of the spec: a JSON object with an `error` key. -/
def isErrorEnvelope (j : Json) : Bool := (j.getKey "error").isSome

/-- The success-envelope shape of the spec: a JSON object whose `status` key
holds the string `success`. -/
def isSuccessEnvelope (j : Json) : Bool :=
  match j.getKey "status" with
  | some (.str s) => s = "success"
  | _ => false

/-- Exactly one of the two envelope shapes of the spec is present. -/
def ExactlyOneShape (j : Json) : Prop :=
  (isErrorEnvelope j = true ∧ isSuccessEnvelope j = false) ∨
    (isSuccessEnvelope j = true ∧ isErrorEnvelope j = false)

/-- A scalar Python value appearing in an identifier list supplied by the
model; `str()` is applied to it element-wise by the deploy.py tools. -/
inductive PyVal where
  | s (v : String) : PyVal
  | i (v : Int) : PyVal

/-- Python `str()` on a scalar. -/
def pyStr : PyVal → String
  | .s v => v
  | .i v => toString v

/-- A scalar embedded into a JSON payload unchanged (app.py passes identifier
lists straight into the request body). -/
def pyValJson : PyVal → Json
  | .s v => .str v
  | .i v => .num v

/-- Python `str.strip()`: drop leading and trailing whitespace. -/
def pyStrip (s : String) : String :=
  String.mk (((s.data.dropWhile Char.isWhitespace).reverse.dropWhile
    Char.isWhitespace).reverse)

/-- Python `str.capitalize()`: first character upper-cased, the rest
lower-cased (ASCII mapping; the action strings compared against are ASCII). -/
def pyCapitalize (s : String) : String :=
  match s.data with
  | [] => ""
  | c :: cs => String.mk (c.toUpper :: cs.map Char.toLower)

/-- ASCII decimal digit test (the `\d` of the compiled strptime regex,
restricted to ASCII). -/
def isDig (c : Char) : Bool := 48 ≤ c.toNat && c.toNat ≤ 57

/-- Numeric value of an ASCII digit character. -/
def digVal (c : Char) : Nat := c.toNat - 48

/-- `%Y` of strptime: exactly four digits (CPython regex `\d\d\d\d`). -/
def parseYear : List Char → Option (Nat × List Char)
  | c1 :: c2 :: c3 :: c4 :: rest =>
    if isDig c1 && isDig c2 && isDig c3 && isDig c4 then
      some (1000 * digVal c1 + 100 * digVal c2 + 10 * digVal c3 + digVal c4, rest)
    else none
  | _ => none

/-- `%m` / `%d` of strptime: two digits with value `1..maxVal`, or a single
digit `1..9` when the next character is not a digit (the regex alternations
`1[0-2]|0[1-9]|[1-9]` and `3[01]|[12]\d|0[1-9]|[1-9]`; a following literal
`-` or end-of-string makes the two branches mutually exclusive, so this
deterministic function matches the backtracking regex). -/
def parseNum2or1 (maxVal : Nat) : List Char → Option (Nat × List Char)
  | c1 :: c2 :: rest =>
    if isDig c1 then
      if isDig c2 then
        if 1 ≤ 10 * digVal c1 + digVal c2 ∧ 10 * digVal c1 + digVal c2 ≤ maxVal then
          some (10 * digVal c1 + digVal c2, rest)
        else none
      else
        if 1 ≤ digVal c1 ∧ digVal c1 ≤ 9 then some (digVal c1, c2 :: rest) else none
    else none
  | [c1] =>
    if isDig c1 then
      if 1 ≤ digVal c1 ∧ digVal c1 ≤ 9 then some (digVal c1, []) else none
    else none
  | [] => none

/-- The literal `-` separators of the formats. -/
def expectDash : List Char → Option (List Char)
  | '-' :: rest => some rest
  | _ => none

/-- Gregorian leap year, as implemented by Python's `datetime`. -/
def isLeapYear (y : Nat) : Bool := (y % 4 == 0 && y % 100 != 0) || y % 400 == 0

/-- Days in a month, as enforced by the `datetime` constructor. -/
def daysInMonth (y m : Nat) : Nat :=
  if m = 2 then (if isLeapYear y then 29 else 28)
  else if m = 4 ∨ m = 6 ∨ m = 9 ∨ m = 11 then 30
  else 31

/-- A calendar date as produced by a successful `strptime` call. -/
structure Date where
  year : Nat
  month : Nat
  day : Nat
deriving DecidableEq, Repr

/-- `datetime.strptime(s, '%Y-%m-%d')`: `some` on success, `none` where
Python raises ValueError (format mismatch, trailing characters, or an
invalid calendar date). -/
def parseYMD (s : String) : Option Date :=
  (parseYear s.data).bind fun (y, r1) =>
  (expectDash r1).bind fun r2 =>
  (parseNum2or1 12 r2).bind fun (m, r3) =>
  (expectDash r3).bind fun r4 =>
  (parseNum2or1 31 r4).bind fun (d, r5) =>
  if r5 = [] ∧ 1 ≤ y ∧ d ≤ daysInMonth y m then some ⟨y, m, d⟩ else none

/-- `datetime.strptime(s, '%Y-%m')`, used by `get_monthly_attendance`. -/
def parseYM (s : String) : Option (Nat × Nat) :=
  (parseYear s.data).bind fun (y, r1) =>
  (expectDash r1).bind fun r2 =>
  (parseNum2or1 12 r2).bind fun (m, r3) =>
  if r3 = [] ∧ 1 ≤ y then some (y, m) else none

/-- `datetime.strptime(s, '%d-%m-%Y')`, used to re-parse converted dates. -/
def parseDMY (s : String) : Option Date :=
  (parseNum2or1 31 s.data).bind fun (d, r1) =>
  (expectDash r1).bind fun r2 =>
  (parseNum2or1 12 r2).bind fun (m, r3) =>
  (expectDash r3).bind fun r4 =>
  (parseYear r4).bind fun (y, r5) =>
  if r5 = [] ∧ 1 ≤ y ∧ d ≤ daysInMonth y m then some ⟨y, m, d⟩ else none

/-- The ASCII character of the low decimal digit of `n`. -/
def digitChar (n : Nat) : Char := Char.ofNat (48 + n % 10)

/-- Two-digit zero-padded rendering (`%d` / `%m` of strftime, for values
up to 99). -/
def pad2 (n : Nat) : String := String.mk [digitChar (n / 10), digitChar n]

/-- Four-digit rendering, the shape `%Y` takes for values 1000..9999. -/
def pad4 (n : Nat) : String :=
  String.mk [digitChar (n / 1000), digitChar (n / 100), digitChar (n / 10), digitChar n]

/-- `%Y` of glibc strftime: the year as a plain decimal number, with no
zero padding for years below 1000 (verified against CPython on Linux:
`datetime(99, 1, 2).strftime('%Y')` is `'99'`).  Years reaching this
function come from a four-digit `%Y` parse, so they are at most 9999. -/
def formatYear (y : Nat) : String :=
  if y < 10 then String.mk [digitChar y]
  else if y < 100 then String.mk [digitChar (y / 10), digitChar y]
  else if y < 1000 then String.mk [digitChar (y / 100), digitChar (y / 10), digitChar y]
  else pad4 y

/-- `strftime('%d-%m-%Y')` on a parsed date. -/
def formatDMY (dt : Date) : String :=
  pad2 dt.day ++ "-" ++ pad2 dt.month ++ "-" ++ formatYear dt.year

/-- `validate_date_format` (deploy.py): true iff strptime with `%Y-%m-%d`
succeeds. -/
def validate_date_format (date_string : String) : Bool :=
  (parseYMD date_string).isSome

/-- `convert_date_format` (deploy.py and app.py) at the only format pair the
repository uses, `%Y-%m-%d` to `%d-%m-%Y`.  `none` models the raised
ValueError. -/
def convert_date_format (date_string : String) : Option String :=
  (parseYMD date_string).map formatDMY

/-- `validate_employee_id` (deploy.py): the string is truthy and its strip
has length at least 1. -/
def validate_employee_id (employee_id : String) : Bool :=
  (employee_id != "") && decide (1 ≤ (pyStrip employee_id).length)

/-- The exception that aborted an HTTP call: `requests.exceptions.HTTPError`
raised by `raise_for_status` on a non-2xx response (carrying the status code
and the response text), `requests.exceptions.Timeout`, or any other exception
with its `str()` message. -/
inductive ApiError where
  | httpError (statusCode : Nat) (text : String) : ApiError
  | timeout : ApiError
  | other (msg : String) : ApiError

/-- What the network does for one POST: a 2xx response with a decoded JSON
body, or an exception. -/
inductive HttpOutcome where
  | ok (body : Json) : HttpOutcome
  | err (e : ApiError) : HttpOutcome

/-- One issued HTTP POST: URL, JSON body, timeout in seconds. -/
structure Request where
  url : String
  payload : Json
  timeout : Nat

/-- What a client function returns together with the requests it issued. -/
structure ToolResult where
  result : Json
  requests : List Request

/-- `_handle_api_error` (deploy.py): maps an exception to the error
envelope. -/
def handle_api_error : ApiError → Json
  | .httpError code text =>
    .obj [("error", .str ("API Error: " ++ toString code)),
          ("details", .str (text.take 500))]
  | .timeout => .obj [("error", .str "API Error: Request timed out")]
  | .other msg => .obj [("error", .str ("An unexpected error occurred: " ++ msg))]

/-- The shared POST-and-handle pattern of every deploy.py tool: issue one
request; on success apply the tool's result transformation to the decoded
body; on any exception return `_handle_api_error`'s envelope. -/
def postJson (url : String) (payload : Json) (timeoutSec : Nat)
    (net : HttpOutcome) (onOk : Json → Json) : ToolResult :=
  { requests := [{ url := url, payload := payload, timeout := timeoutSec }],
    result :=
      match net with
      | .ok body => onOk body
      | .err e => handle_api_error e }

/-- The `{"status": "success", "data": ...}` wrapper used by the deploy.py
attendance tools. -/
def wrapStatus (body : Json) : Json :=
  .obj [("status", .str "success"), ("data", body)]

/-- The validation-failure return value shared by `get_leave_report`,
`apply_for_leave` and `get_leave_encashment_details`. -/
def invalidParamsResult : ToolResult :=
  { result := .obj [("error",
      .str "Invalid input parameters. Check employee_no and date formats (YYYY-MM-DD).")],
    requests := [] }

/-- Python `len()` on a decoded JSON value: defined for lists, strings and
dicts, a TypeError otherwise. -/
def pyLen : Json → Option Nat
  | .arr xs => some xs.length
  | .str s => some s.length
  | .obj fs => some fs.length
  | _ => none

/-- The configuration deploy.py loads from the environment at startup
(domain plus one API key per operation; basic-auth credentials are transport
metadata and not used by any claim). -/
structure Config where
  domain : String
  leaveReportKey : String
  leaveActionKey : String
  leaveHolidayKey : String
  leaveBalanceKey : String
  leaveEncashmentKey : String
  leaveImportKey : String
  attdDailyRosterKey : String
  attdDailyStatusKey : String
  attdPunchesKey : String
  attdMonthlyKey : String
  attdTimesheetDatewiseKey : String
  attdOvertimeDatewiseKey : String
  empApiKey : String
  empDatasetKey : String

namespace Deploy

/-- `get_leave_report` (deploy.py).  The source validates the employee id and
both dates with `validate_date_format` and then converts with
`convert_date_format`; both run the same strptime parse, matched once here. -/
def get_leave_report (cfg : Config) (employee_no start_date end_date : String)
    (net : HttpOutcome) : ToolResult :=
  match parseYMD start_date, parseYMD end_date with
  | some d1, some d2 =>
    if validate_employee_id employee_no then
      postJson (cfg.domain ++ "/leavesactionapi/leaveActionTakenLeaves")
        (.obj [("api_key", .str cfg.leaveReportKey),
               ("from", .str (formatDMY d1)),
               ("to", .str (formatDMY d2)),
               ("action", .str "2"),
               ("action_from", .str (formatDMY d1)),
               ("employee_no", .arr [.str (pyStrip employee_no)])])
        30 net id
    else invalidParamsResult
  | _, _ => invalidParamsResult

/-- `get_leave_balance` (deploy.py): no validation; list elements coerced with
`str()` and stripped; `leave_names or []` maps a missing or empty list
to `[]`. -/
def get_leave_balance (cfg : Config) (employee_nos : List PyVal)
    (leave_names : Option (List String)) (net : HttpOutcome) : ToolResult :=
  postJson (cfg.domain ++ "/leavesactionapi/leavebalance")
    (.obj [("api_key", .str cfg.leaveBalanceKey),
           ("ignore_rounding", .str "1"),
           ("employee_nos", .arr (employee_nos.map (fun e => .str (pyStrip (pyStr e))))),
           ("leave_names", .arr ((leave_names.getD []).map .str))])
    30 net id

/-- `update_leave_status` (deploy.py): `action.capitalize()` must be one of
the three enum values, else a structured error before any request. -/
def update_leave_status (cfg : Config)
    (employee_no leave_id action manager_message : String)
    (net : HttpOutcome) : ToolResult :=
  if pyCapitalize action = "Approved" ∨ pyCapitalize action = "Rejected" ∨
      pyCapitalize action = "Revoked" then
    postJson (cfg.domain ++ "/leavesactionapi/leaveaction")
      (.obj [("api_key", .str cfg.leaveActionKey),
             ("employee_no", .str (pyStrip employee_no)),
             ("leave_id", .str leave_id),
             ("action", .str (pyCapitalize action)),
             ("manager_message", .str manager_message)])
      30 net id
  else
    { result := .obj [("error", .str ("Invalid action: " ++ action ++
        ". Must be \x27Approved\x27, \x27Rejected\x27, or \x27Revoked\x27."))],
      requests := [] }

/-- The `leave_data` dict `apply_for_leave` (deploy.py) builds: the fixed
fields, then the half-day selector key appended only when `is_half_day`
(`"1"` for the first half, `"2"` otherwise). -/
def apply_leave_record (employee_no leave_name message : String) (d1 d2 : Date)
    (is_half_day is_first_half is_paid : Bool) : Json :=
  .obj (
    [("employee_no", .str (pyStrip employee_no)),
     ("leave_name", .str leave_name),
     ("message", .str message),
     ("from_date", .str (formatDMY d1)),
     ("to_date", .str (formatDMY d2)),
     ("is_half_day", .str (if is_half_day then "yes" else "no")),
     ("is_paid_or_unpaid", .str (if is_paid then "paid" else "unpaid")),
     ("revoke_leave", .str "no")] ++
    (if is_half_day then
       [("is_firsthalf_secondhalf", .str (if is_first_half then "1" else "2"))]
     else []))

/-- `apply_for_leave` (deploy.py): after validation, builds one leave record
wrapped in a one-element `data` array.  `message` defaults to
"Applied via AI" at the Python level; it is an explicit argument here. -/
def apply_for_leave (cfg : Config)
    (employee_no leave_name start_date end_date : String)
    (is_half_day is_first_half is_paid : Bool) (message : String)
    (net : HttpOutcome) : ToolResult :=
  match parseYMD start_date, parseYMD end_date with
  | some d1, some d2 =>
    if validate_employee_id employee_no then
      postJson (cfg.domain ++ "/leavesactionapi/importleave")
        (.obj [("api_key", .str cfg.leaveImportKey),
               ("data", .arr [apply_leave_record employee_no leave_name message d1 d2
                 is_half_day is_first_half is_paid])])
        30 net id
    else invalidParamsResult
  | _, _ => invalidParamsResult

/-- `year or str(datetime.now().year)` of `get_holiday_list`: Python `or`
falls back on a missing argument and on the falsy empty string alike; the
current year is an explicit argument here. -/
def resolveYear : Option String → Nat → String
  | some s, cy => if s = "" then toString cy else s
  | none, cy => toString cy

/-- `get_holiday_list` (deploy.py): only the employee id is validated. -/
def get_holiday_list (cfg : Config) (employee_no : String)
    (year : Option String) (currentYear : Nat) (net : HttpOutcome) : ToolResult :=
  if validate_employee_id employee_no then
    postJson (cfg.domain ++ "/leavesactionapi/holidaylist")
      (.obj [("api_key", .str cfg.leaveHolidayKey),
             ("employee_no", .str (pyStrip employee_no)),
             ("year", .str (resolveYear year currentYear))])
      30 net id
  else
    { result := .obj [("error", .str "Invalid employee_no.")], requests := [] }

/-- `get_leave_encashment_details` (deploy.py): validated dates are expanded
to day-start / day-end timestamps. -/
def get_leave_encashment_details (cfg : Config)
    (employee_no start_date end_date : String) (net : HttpOutcome) : ToolResult :=
  match parseYMD start_date, parseYMD end_date with
  | some d1, some d2 =>
    if validate_employee_id employee_no then
      postJson (cfg.domain ++ "/leavesactionapi/encashmentDetails")
        (.obj [("api_key", .str cfg.leaveEncashmentKey),
               ("from", .str (formatDMY d1 ++ " 00:00:00")),
               ("to", .str (formatDMY d2 ++ " 23:59:59")),
               ("employee_no", .arr [.str (pyStrip employee_no)])])
        30 net id
    else invalidParamsResult
  | _, _ => invalidParamsResult

/-- `get_daily_attendance_status` (deploy.py): validates the single date,
converts it, and wraps the remote body in the success envelope.  Note the
hyphenated payload key `emp-number_list` of the source. -/
def get_daily_attendance_status (cfg : Config) (employee_ids : List PyVal)
    (attendance_date : String) (net : HttpOutcome) : ToolResult :=
  match parseYMD attendance_date with
  | none =>
    { result := .obj [("error", .str "Invalid date format. Please use YYYY-MM-DD.")],
      requests := [] }
  | some d =>
    postJson (cfg.domain ++ "/AttendanceDataApi/daily")
      (.obj [("api_key", .str cfg.attdDailyStatusKey),
             ("emp-number_list", .arr (employee_ids.map (fun e => .str (pyStrip (pyStr e))))),
             ("attendance_date", .str (formatDMY d))])
      30 net wrapStatus

/-- `get_daily_attendance_roster` (deploy.py): no date validation or
conversion; `from_date` and `to_date` are forwarded verbatim. -/
def get_daily_attendance_roster (cfg : Config) (employee_ids : List PyVal)
    (from_date to_date : String) (net : HttpOutcome) : ToolResult :=
  postJson (cfg.domain ++ "/attendanceDataApi/DailyAttendanceRoster")
    (.obj [("api_key", .str cfg.attdDailyRosterKey),
           ("emp_number_list", .arr (employee_ids.map (fun e => .str (pyStrip (pyStr e))))),
           ("from_date", .str from_date),
           ("to_date", .str to_date)])
    30 net wrapStatus

/-- `get_attendance_punches` (deploy.py): no explicit validation, but
`convert_date_format` raises `ValueError("Invalid date format: ...")` on a
malformed date, which the generic handler turns into an error envelope
before any request. -/
def get_attendance_punches (cfg : Config) (employee_ids : List PyVal)
    (from_date to_date : String) (net : HttpOutcome) : ToolResult :=
  match parseYMD from_date with
  | none =>
    { result := handle_api_error (.other ("Invalid date format: " ++ from_date)),
      requests := [] }
  | some d1 =>
    match parseYMD to_date with
    | none =>
      { result := handle_api_error (.other ("Invalid date format: " ++ to_date)),
        requests := [] }
    | some d2 =>
      postJson (cfg.domain ++ "/AttendancePunchesApi")
        (.obj [("api_key", .str cfg.attdPunchesKey),
               ("emp_number_list", .arr (employee_ids.map (fun e => .str (pyStrip (pyStr e))))),
               ("from_date", .str (formatDMY d1)),
               ("to_date", .str (formatDMY d2))])
        30 net wrapStatus

/-- `get_monthly_attendance` (deploy.py): strict `%Y-%m` check; the
ValueError branch returns its own message and no request is made. -/
def get_monthly_attendance (cfg : Config) (employee_ids : List PyVal)
    (month_year : String) (net : HttpOutcome) : ToolResult :=
  match parseYM month_year with
  | none =>
    { result := .obj [("error", .str "Invalid month_year format. Must be YYYY-MM.")],
      requests := [] }
  | some _ =>
    postJson (cfg.domain ++ "/AttendanceDataApi/monthly")
      (.obj [("api_key", .str cfg.attdMonthlyKey),
             ("emp_number_list", .arr (employee_ids.map (fun e => .str (pyStrip (pyStr e))))),
             ("month", .str month_year)])
      30 net wrapStatus

/-- `get_timesheet_datewise` (deploy.py): converts both dates first (a
malformed one becomes an error envelope, no request). -/
def get_timesheet_datewise (cfg : Config) (employee_ids : List PyVal)
    (from_date to_date : String) (net : HttpOutcome) : ToolResult :=
  match parseYMD from_date with
  | none =>
    { result := handle_api_error (.other ("Invalid date format: " ++ from_date)),
      requests := [] }
  | some d1 =>
    match parseYMD to_date with
    | none =>
      { result := handle_api_error (.other ("Invalid date format: " ++ to_date)),
        requests := [] }
    | some d2 =>
      postJson (cfg.domain ++ "/attendanceDataApi/timesheetdatewise")
        (.obj [("api_key", .str cfg.attdTimesheetDatewiseKey),
               ("from", .str (formatDMY d1)),
               ("to", .str (formatDMY d2)),
               ("emp_number_list", .arr (employee_ids.map (fun e => .str (pyStrip (pyStr e)))))])
        30 net wrapStatus

/-- `get_overtime_datewise` (deploy.py): same shape as the timesheet tool. -/
def get_overtime_datewise (cfg : Config) (employee_ids : List PyVal)
    (from_date to_date : String) (net : HttpOutcome) : ToolResult :=
  match parseYMD from_date with
  | none =>
    { result := handle_api_error (.other ("Invalid date format: " ++ from_date)),
      requests := [] }
  | some d1 =>
    match parseYMD to_date with
    | none =>
      { result := handle_api_error (.other ("Invalid date format: " ++ to_date)),
        requests := [] }
    | some d2 =>
      postJson (cfg.domain ++ "/attendanceDataApi/getOverTimeDatewise")
        (.obj [("api_key", .str cfg.attdOvertimeDatewiseKey),
               ("from", .str (formatDMY d1)),
               ("to", .str (formatDMY d2)),
               ("emp_number_list", .arr (employee_ids.map (fun e => .str (pyStrip (pyStr e)))))])
        30 net wrapStatus

/-- The value `get_all_employees` (deploy.py) takes the length of:
`api_data.get("data", [])` for a dict body, `api_data` itself otherwise; a
value with no `len()` raises TypeError, which the generic handler converts
(the TypeError's exact message text is abstracted to a fixed string). -/
def all_employees_counted (body : Json) : Json :=
  match body with
  | .obj fs => (lookupField fs "data").getD (.arr [])
  | other => other

/-- The success transformation of `get_all_employees` (deploy.py), applied to
the decoded body: wrap it with `status: success` and the derived count. -/
def all_employees_success (body : Json) : Json :=
  match pyLen (all_employees_counted body) with
  | some n => .obj [("status", .str "success"), ("employee_count", .num n), ("data", body)]
  | none => handle_api_error (.other "object has no len()")

/-- `get_all_employees` (deploy.py): the unfiltered directory fetch, the only
deploy.py tool with a 60-second timeout, annotating the body with a derived
employee count. -/
def get_all_employees (cfg : Config) (net : HttpOutcome) : ToolResult :=
  postJson (cfg.domain ++ "/masterapi/employee")
    (.obj [("api_key", .str cfg.empApiKey), ("datasetKey", .str cfg.empDatasetKey)])
    60 net all_employees_success

end Deploy

/-- The configuration app.py loads from the environment. -/
structure AppConfig where
  domain : String
  leaveApiKey : String
  empApiKey : String
  empDatasetKey : String
  attendanceApiKey : String

/-- The `str(e)` text app.py interpolates into its generic error message.
`requests` renders an HTTPError from the status code, a reason phrase and
the URL — never the response body; the reason phrase is abstracted away
here.  The Timeout and ValueError messages are likewise abstracted to the
information they actually carry. -/
def appExceptionText : ApiError → String → String
  | .httpError code _text, url => toString code ++ " Error for url: " ++ url
  | .timeout, _ => "Request timed out"
  | .other msg, _ => msg

/-- The single `except Exception` branch shared by all four app.py tools:
`{"error": f"An unexpected error occurred: {str(e)}"}`. -/
def appErrorEnvelope (e : ApiError) (url : String) : Json :=
  .obj [("error", .str ("An unexpected error occurred: " ++ appExceptionText e url))]

/-- The shared POST-and-handle pattern of the app.py tools: the remote body
is returned unmodified on success; every exception becomes the one generic
envelope. -/
def postJsonApp (url : String) (payload : Json) (timeoutSec : Nat)
    (net : HttpOutcome) : ToolResult :=
  { requests := [{ url := url, payload := payload, timeout := timeoutSec }],
    result :=
      match net with
      | .ok body => body
      | .err e => appErrorEnvelope e url }

/-- The message of the ValueError `strptime` raises on a format mismatch. -/
def strptimeErrMsg (s fmt : String) : String :=
  "time data \x27" ++ s ++ "\x27 does not match format \x27" ++ fmt ++ "\x27"

namespace App

/-- `get_leave_report` (app.py): no validation; `convert_date_format` raises
straight into the generic handler on a malformed date (the start date is
converted first), so no request carries a malformed date. -/
def get_leave_report (cfg : AppConfig) (employee_id start_date end_date : String)
    (net : HttpOutcome) : ToolResult :=
  match parseYMD start_date with
  | none =>
    { result := appErrorEnvelope (.other (strptimeErrMsg start_date "%Y-%m-%d"))
        (cfg.domain ++ "/leavesactionapi/leaveActionTakenLeaves"),
      requests := [] }
  | some d1 =>
    match parseYMD end_date with
    | none =>
      { result := appErrorEnvelope (.other (strptimeErrMsg end_date "%Y-%m-%d"))
          (cfg.domain ++ "/leavesactionapi/leaveActionTakenLeaves"),
        requests := [] }
    | some d2 =>
      postJsonApp (cfg.domain ++ "/leavesactionapi/leaveActionTakenLeaves")
        (.obj [("api_key", .str cfg.leaveApiKey),
               ("from", .str (formatDMY d1)),
               ("to", .str (formatDMY d2)),
               ("action", .str "2"),
               ("action_from", .str (formatDMY d1)),
               ("employee_no", .arr [.str (pyStrip employee_id)])])
        30 net

/-- `get_employee_info` (app.py): the targeted profile fetch; the identifier
list is placed in the payload as supplied (no `str()` coercion, no strip)
and the timeout is 15 seconds. -/
def get_employee_info (cfg : AppConfig) (employee_ids : List PyVal)
    (net : HttpOutcome) : ToolResult :=
  postJsonApp (cfg.domain ++ "/masterapi/employee")
    (.obj [("api_key", .str cfg.empApiKey),
           ("datasetKey", .str cfg.empDatasetKey),
           ("employee_ids", .arr (employee_ids.map pyValJson))])
    15 net

/-- `get_all_employees` (app.py): the unfiltered directory fetch, 60-second
timeout, body passed through without a derived count. -/
def get_all_employees (cfg : AppConfig) (net : HttpOutcome) : ToolResult :=
  postJsonApp (cfg.domain ++ "/masterapi/employee")
    (.obj [("api_key", .str cfg.empApiKey), ("datasetKey", .str cfg.empDatasetKey)])
    60 net

/-- `get_attendance_report` (app.py): dates and the identifier list are
forwarded verbatim (no validation, no conversion, no strip). -/
def get_attendance_report (cfg : AppConfig) (employee_ids : List PyVal)
    (from_date to_date : String) (net : HttpOutcome) : ToolResult :=
  postJsonApp (cfg.domain ++ "/attendanceDataApi/DailyAttendanceRoster")
    (.obj [("api_key", .str cfg.attendanceApiKey),
           ("emp_number_list", .arr (employee_ids.map pyValJson)),
           ("from_date", .str from_date),
           ("to_date", .str to_date)])
    30 net

end App

/-- What the model returns for one `send_message` call: a function-call part
(`function_call.name` is the empty string when no tool call is requested,
matching the proto default app.py tests for truthiness) and the reply
text. -/
structure ModelReply where
  fnName : String
  fnArgs : Json
  text : String

/-- The model's behaviour during one user turn: its reply to the user prompt,
and the text it produces after receiving a tool response. -/
structure ModelOracle where
  first : ModelReply
  afterTool : String

/-- A message the dispatch loop sends to the model within one turn. -/
inductive SentMessage where
  | userPrompt (p : String) : SentMessage
  | toolResponse (name : String) (content : Json) : SentMessage

/-- The observable outcome of one user turn of app.py's `main`. -/
structure TurnOutcome where
  finalText : String
  toolInvocations : List (String × Json)
  sentToModel : List SentMessage

/-- Dict lookup in `available_tools` (`available_tools[fn_name]`). -/
def lookupTool : List (String × (Json → Json)) → String → Option (Json → Json)
  | [], _ => none
  | (k, f) :: rest, key => if k = key then some f else lookupTool rest key

/-- The dispatch loop of app.py's `main` for one user turn: send the prompt;
if the first reply carries a function-call name, look it up in
`available_tools` (a missing name raises KeyError into the outer handler:
generic error text, no tool runs, no second model call), invoke the tool
once, send the tool response wrapped as `{"content": result}` back once, and
relay the follow-up text; otherwise relay the first reply's text.  The
registry is the dict of tool callables. -/
def runTurn (registry : List (String × (Json → Json))) (oracle : ModelOracle)
    (prompt : String) : TurnOutcome :=
  if oracle.first.fnName ≠ "" then
    match lookupTool registry oracle.first.fnName with
    | some f =>
      { finalText := oracle.afterTool,
        toolInvocations := [(oracle.first.fnName, oracle.first.fnArgs)],
        sentToModel := [.userPrompt prompt,
          .toolResponse oracle.first.fnName (.obj [("content", f oracle.first.fnArgs)])] }
    | none =>
      { finalText := "An unexpected error occurred: \x27" ++ oracle.first.fnName ++
          "\x27. Please try again.",
        toolInvocations := [],
        sentToModel := [.userPrompt prompt] }
  else
    { finalText := oracle.first.text,
      toolInvocations := [],
      sentToModel := [.userPrompt prompt] }

/-- A concrete deploy.py configuration used to evaluate the client functions
at explicit inputs. -/
def testCfg : Config :=
  { domain := "https://hr.example.com"
    leaveReportKey := "k_report"
    leaveActionKey := "k_action"
    leaveHolidayKey := "k_holiday"
    leaveBalanceKey := "k_balance"
    leaveEncashmentKey := "k_encashment"
    leaveImportKey := "k_import"
    attdDailyRosterKey := "k_daily_roster"
    attdDailyStatusKey := "k_daily_status"
    attdPunchesKey := "k_punches"
    attdMonthlyKey := "k_monthly"
    attdTimesheetDatewiseKey := "k_timesheet"
    attdOvertimeDatewiseKey := "k_overtime"
    empApiKey := "k_emp"
    empDatasetKey := "k_dataset" }

/-- A concrete app.py configuration used to evaluate the client functions at
explicit inputs. -/
def testAppCfg : AppConfig :=
  { domain := "https://hr.example.com"
    leaveApiKey := "k_leave"
    empApiKey := "k_emp"
    empDatasetKey := "k_dataset"
    attendanceApiKey := "k_attendance" }

/-! ### Helper lemmas about the date model -/

theorem isDig_digitChar (n : Nat) : isDig (digitChar n) = true := by
  have h : n % 10 < 10 := Nat.mod_lt _ (by norm_num)
  unfold digitChar
  generalize n % 10 = r at h ⊢
  interval_cases r <;> decide

theorem digVal_digitChar (n : Nat) : digVal (digitChar n) = n % 10 := by
  have h : n % 10 < 10 := Nat.mod_lt _ (by norm_num)
  unfold digitChar digVal
  generalize n % 10 = r at h ⊢
  interval_cases r <;> decide

theorem formatDMY_data (dt : Date) (h : 1000 ≤ dt.year) :
    (formatDMY dt).data =
      [digitChar (dt.day / 10), digitChar dt.day, '-',
       digitChar (dt.month / 10), digitChar dt.month, '-',
       digitChar (dt.year / 1000), digitChar (dt.year / 100),
       digitChar (dt.year / 10), digitChar dt.year] := by
  unfold formatDMY formatYear
  rw [if_neg (by omega), if_neg (by omega), if_neg (by omega)]
  rfl

theorem expectDash_cons (l : List Char) : expectDash ('-' :: l) = some l := rfl

theorem parseNum2or1_pad (mx v : Nat) (rest : List Char) (h1 : 1 ≤ v)
    (h2 : v ≤ mx) (h99 : v ≤ 99) :
    parseNum2or1 mx (digitChar (v / 10) :: digitChar v :: rest) = some (v, rest) := by
  have hv : 10 * (v / 10 % 10) + v % 10 = v := by omega
  simp only [parseNum2or1, isDig_digitChar, digVal_digitChar, if_true, hv]
  rw [if_pos ⟨h1, h2⟩]

theorem parseYear_pad (y : Nat) (rest : List Char) (h : y ≤ 9999) :
    parseYear (digitChar (y / 1000) :: digitChar (y / 100) :: digitChar (y / 10) ::
      digitChar y :: rest) = some (y, rest) := by
  have hv : 1000 * (y / 1000 % 10) + 100 * (y / 100 % 10) + 10 * (y / 10 % 10) +
      y % 10 = y := by omega
  simp only [parseYear, isDig_digitChar, Bool.and_self, if_true, digVal_digitChar, hv]

theorem isDig_bounds {c : Char} (h : isDig c = true) :
    48 ≤ c.toNat ∧ c.toNat ≤ 57 := by
  simpa [isDig] using h

theorem parseNum2or1_inv {mx v : Nat} {l r : List Char} (h9 : 9 ≤ mx)
    (h : parseNum2or1 mx l = some (v, r)) : 1 ≤ v ∧ v ≤ mx := by
  match l with
  | [] => simp [parseNum2or1] at h
  | [c1] =>
    simp only [parseNum2or1] at h
    split at h
    · split at h
      · rename_i hc
        simp only [Option.some.injEq, Prod.mk.injEq] at h
        omega
      · simp at h
    · simp at h
  | c1 :: c2 :: rest =>
    simp only [parseNum2or1] at h
    split at h
    · split at h
      · split at h
        · rename_i hc
          simp only [Option.some.injEq, Prod.mk.injEq] at h
          omega
        · simp at h
      · split at h
        · rename_i hc
          simp only [Option.some.injEq, Prod.mk.injEq] at h
          omega
        · simp at h
    · simp at h

theorem parseYear_inv {y : Nat} {l r : List Char}
    (h : parseYear l = some (y, r)) : y ≤ 9999 := by
  match l with
  | [] => simp [parseYear] at h
  | [_] => simp [parseYear] at h
  | [_, _] => simp [parseYear] at h
  | [_, _, _] => simp [parseYear] at h
  | c1 :: c2 :: c3 :: c4 :: rest =>
    simp only [parseYear] at h
    split at h
    · rename_i hd
      simp only [Bool.and_eq_true] at hd
      obtain ⟨⟨⟨h1, h2⟩, h3⟩, h4⟩ := hd
      obtain ⟨b1, b1'⟩ := isDig_bounds h1
      obtain ⟨b2, b2'⟩ := isDig_bounds h2
      obtain ⟨b3, b3'⟩ := isDig_bounds h3
      obtain ⟨b4, b4'⟩ := isDig_bounds h4
      simp only [Option.some.injEq, Prod.mk.injEq] at h
      unfold digVal at h
      omega
    · simp at h

theorem parseYMD_inv {s : String} {dt : Date} (h : parseYMD s = some dt) :
    1 ≤ dt.year ∧ dt.year ≤ 9999 ∧ 1 ≤ dt.month ∧ dt.month ≤ 12 ∧
      1 ≤ dt.day ∧ dt.day ≤ 31 ∧ dt.day ≤ daysInMonth dt.year dt.month := by
  unfold parseYMD at h
  simp only [Option.bind_eq_some] at h
  obtain ⟨⟨y, r1⟩, hy, h⟩ := h
  obtain ⟨r2, _, h⟩ := h
  obtain ⟨⟨m, r3⟩, hm, h⟩ := h
  obtain ⟨r4, _, h⟩ := h
  obtain ⟨⟨d, r5⟩, hd, h⟩ := h
  split at h
  · rename_i hc
    obtain ⟨-, hy1, hdm⟩ := hc
    obtain ⟨hm1, hm2⟩ := parseNum2or1_inv (by norm_num) hm
    obtain ⟨hd1, hd2⟩ := parseNum2or1_inv (by norm_num) hd
    have hy2 := parseYear_inv hy
    cases h
    exact ⟨hy1, hy2, hm1, hm2, hd1, hd2, hdm⟩
  · simp at h

theorem parseDMY_formatDMY {dt : Date} (hy2 : dt.year ≤ 9999) (hy3 : 1000 ≤ dt.year)
    (hm1 : 1 ≤ dt.month) (hm2 : dt.month ≤ 12) (hd1 : 1 ≤ dt.day) (hd2 : dt.day ≤ 31)
    (hdm : dt.day ≤ daysInMonth dt.year dt.month) :
    parseDMY (formatDMY dt) = some dt := by
  unfold parseDMY
  rw [formatDMY_data dt hy3]
  simp only [parseNum2or1_pad 31 dt.day _ hd1 hd2 (by omega), Option.some_bind,
    expectDash_cons, parseNum2or1_pad 12 dt.month _ hm1 hm2 (by omega),
    parseYear_pad dt.year [] hy2]
  rw [if_pos ⟨trivial, by omega, hdm⟩]

/-! ### Helper lemmas about envelopes and the shared POST pattern -/

theorem isErrorEnvelope_handle (e : ApiError) :
    isErrorEnvelope (handle_api_error e) = true := by
  cases e <;> rfl

theorem isSuccessEnvelope_handle (e : ApiError) :
    isSuccessEnvelope (handle_api_error e) = false := by
  cases e <;> rfl

theorem exactlyOne_handle (e : ApiError) : ExactlyOneShape (handle_api_error e) :=
  Or.inl ⟨isErrorEnvelope_handle e, isSuccessEnvelope_handle e⟩

theorem isErrorEnvelope_appError (e : ApiError) (url : String) :
    isErrorEnvelope (appErrorEnvelope e url) = true := rfl

theorem isSuccessEnvelope_appError (e : ApiError) (url : String) :
    isSuccessEnvelope (appErrorEnvelope e url) = false := rfl

theorem exactlyOne_appError (e : ApiError) (url : String) :
    ExactlyOneShape (appErrorEnvelope e url) :=
  Or.inl ⟨isErrorEnvelope_appError e url, isSuccessEnvelope_appError e url⟩

theorem exactlyOne_wrapStatus (b : Json) : ExactlyOneShape (wrapStatus b) :=
  Or.inr ⟨rfl, rfl⟩

theorem exactlyOne_all_employees_success (b : Json) :
    ExactlyOneShape (Deploy.all_employees_success b) := by
  unfold Deploy.all_employees_success
  split
  · exact Or.inr ⟨rfl, rfl⟩
  · exact exactlyOne_handle _

theorem exactlyOne_postJson_allEmp (url : String) (p : Json) (t : Nat)
    (net : HttpOutcome) :
    ExactlyOneShape (postJson url p t net Deploy.all_employees_success).result := by
  cases net with
  | ok b => exact exactlyOne_all_employees_success b
  | err e => exact exactlyOne_handle e

theorem exactlyOne_postJson_wrap (url : String) (p : Json) (t : Nat)
    (net : HttpOutcome) :
    ExactlyOneShape (postJson url p t net wrapStatus).result := by
  cases net with
  | ok b => exact exactlyOne_wrapStatus b
  | err e => exact exactlyOne_handle e

theorem exactlyOne_postJson_pass (url : String) (p : Json) (t : Nat)
    (net : HttpOutcome) :
    ExactlyOneShape (postJson url p t net id).result ∨
      ∃ b, net = .ok b ∧ (postJson url p t net id).result = b := by
  cases net with
  | ok b => exact Or.inr ⟨b, rfl, rfl⟩
  | err e => exact Or.inl (exactlyOne_handle e)

theorem exactlyOne_postJsonApp (url : String) (p : Json) (t : Nat)
    (net : HttpOutcome) :
    ExactlyOneShape (postJsonApp url p t net).result ∨
      ∃ b, net = .ok b ∧ (postJsonApp url p t net).result = b := by
  cases net with
  | ok b => exact Or.inr ⟨b, rfl, rfl⟩
  | err e => exact Or.inl (exactlyOne_appError e url)

/-! ### C1 -/

/-- C1 counterexample.  The claim says every operation returns, on every
path, either a success envelope containing `status: "success"` or an error
envelope.  `get_leave_report` (deploy.py) passes the remote JSON through
unmodified on HTTP success, so a 2xx response whose body is the empty object
yields a result that is neither shape. -/
theorem c1_envelope_counterexample :
    isSuccessEnvelope (Deploy.get_leave_report testCfg "E1" "2025-01-01" "2025-01-31"
        (.ok (.obj []))).result = false ∧
      isErrorEnvelope (Deploy.get_leave_report testCfg "E1" "2025-01-01" "2025-01-31"
        (.ok (.obj []))).result = false := by
  exact ⟨rfl, rfl⟩

/-- C1 (amended): on every failure path (local validation, HTTP error,
timeout, other exception) every HR API client operation returns exactly the
error-envelope shape; on HTTP success the deploy.py attendance operations
and `get_all_employees` return exactly the success-envelope shape, while the
deploy.py leave operations and all four app.py operations pass the remote
body through unmodified (so the result carries a shape only if the remote
payload does). -/
theorem c1_envelope_shapes :
    (∀ cfg ids date net,
      ExactlyOneShape (Deploy.get_daily_attendance_status cfg ids date net).result)
    ∧ (∀ cfg ids fd td net,
      ExactlyOneShape (Deploy.get_daily_attendance_roster cfg ids fd td net).result)
    ∧ (∀ cfg ids fd td net,
      ExactlyOneShape (Deploy.get_attendance_punches cfg ids fd td net).result)
    ∧ (∀ cfg ids my net,
      ExactlyOneShape (Deploy.get_monthly_attendance cfg ids my net).result)
    ∧ (∀ cfg ids fd td net,
      ExactlyOneShape (Deploy.get_timesheet_datewise cfg ids fd td net).result)
    ∧ (∀ cfg ids fd td net,
      ExactlyOneShape (Deploy.get_overtime_datewise cfg ids fd td net).result)
    ∧ (∀ cfg net, ExactlyOneShape (Deploy.get_all_employees cfg net).result)
    ∧ (∀ cfg e sd ed net,
      ExactlyOneShape (Deploy.get_leave_report cfg e sd ed net).result ∨
        ∃ b, net = .ok b ∧ (Deploy.get_leave_report cfg e sd ed net).result = b)
    ∧ (∀ cfg nos names net,
      ExactlyOneShape (Deploy.get_leave_balance cfg nos names net).result ∨
        ∃ b, net = .ok b ∧ (Deploy.get_leave_balance cfg nos names net).result = b)
    ∧ (∀ cfg e lid act msg net,
      ExactlyOneShape (Deploy.update_leave_status cfg e lid act msg net).result ∨
        ∃ b, net = .ok b ∧ (Deploy.update_leave_status cfg e lid act msg net).result = b)
    ∧ (∀ cfg e ln sd ed hd fh pd msg net,
      ExactlyOneShape (Deploy.apply_for_leave cfg e ln sd ed hd fh pd msg net).result ∨
        ∃ b, net = .ok b ∧
          (Deploy.apply_for_leave cfg e ln sd ed hd fh pd msg net).result = b)
    ∧ (∀ cfg e yr cy net,
      ExactlyOneShape (Deploy.get_holiday_list cfg e yr cy net).result ∨
        ∃ b, net = .ok b ∧ (Deploy.get_holiday_list cfg e yr cy net).result = b)
    ∧ (∀ cfg e sd ed net,
      ExactlyOneShape (Deploy.get_leave_encashment_details cfg e sd ed net).result ∨
        ∃ b, net = .ok b ∧
          (Deploy.get_leave_encashment_details cfg e sd ed net).result = b)
    ∧ (∀ cfg e sd ed net,
      ExactlyOneShape (App.get_leave_report cfg e sd ed net).result ∨
        ∃ b, net = .ok b ∧ (App.get_leave_report cfg e sd ed net).result = b)
    ∧ (∀ cfg ids net,
      ExactlyOneShape (App.get_employee_info cfg ids net).result ∨
        ∃ b, net = .ok b ∧ (App.get_employee_info cfg ids net).result = b)
    ∧ (∀ cfg net,
      ExactlyOneShape (App.get_all_employees cfg net).result ∨
        ∃ b, net = .ok b ∧ (App.get_all_employees cfg net).result = b)
    ∧ (∀ cfg ids fd td net,
      ExactlyOneShape (App.get_attendance_report cfg ids fd td net).result ∨
        ∃ b, net = .ok b ∧ (App.get_attendance_report cfg ids fd td net).result = b) := by
  refine ⟨?_, ?_, ?_, ?_, ?_, ?_, ?_, ?_, ?_, ?_, ?_, ?_, ?_, ?_, ?_, ?_, ?_⟩
  · intro cfg ids date net
    unfold Deploy.get_daily_attendance_status
    cases hp : parseYMD date with
    | none => exact Or.inl ⟨rfl, rfl⟩
    | some d => exact exactlyOne_postJson_wrap _ _ _ _
  · intro cfg ids fd td net
    exact exactlyOne_postJson_wrap _ _ _ _
  · intro cfg ids fd td net
    unfold Deploy.get_attendance_punches
    cases hp : parseYMD fd with
    | none => exact Or.inl ⟨rfl, rfl⟩
    | some d1 =>
      cases hq : parseYMD td with
      | none => exact Or.inl ⟨rfl, rfl⟩
      | some d2 => exact exactlyOne_postJson_wrap _ _ _ _
  · intro cfg ids my net
    unfold Deploy.get_monthly_attendance
    cases hp : parseYM my with
    | none => exact Or.inl ⟨rfl, rfl⟩
    | some p => exact exactlyOne_postJson_wrap _ _ _ _
  · intro cfg ids fd td net
    unfold Deploy.get_timesheet_datewise
    cases hp : parseYMD fd with
    | none => exact Or.inl ⟨rfl, rfl⟩
    | some d1 =>
      cases hq : parseYMD td with
      | none => exact Or.inl ⟨rfl, rfl⟩
      | some d2 => exact exactlyOne_postJson_wrap _ _ _ _
  · intro cfg ids fd td net
    unfold Deploy.get_overtime_datewise
    cases hp : parseYMD fd with
    | none => exact Or.inl ⟨rfl, rfl⟩
    | some d1 =>
      cases hq : parseYMD td with
      | none => exact Or.inl ⟨rfl, rfl⟩
      | some d2 => exact exactlyOne_postJson_wrap _ _ _ _
  · intro cfg net
    exact exactlyOne_postJson_allEmp _ _ _ _
  · intro cfg e sd ed net
    unfold Deploy.get_leave_report
    cases hp : parseYMD sd with
    | none => exact Or.inl (Or.inl ⟨rfl, rfl⟩)
    | some d1 =>
      cases hq : parseYMD ed with
      | none => exact Or.inl (Or.inl ⟨rfl, rfl⟩)
      | some d2 =>
        cases hv : validate_employee_id e with
        | true => exact exactlyOne_postJson_pass _ _ _ _
        | false => exact Or.inl (Or.inl ⟨rfl, rfl⟩)
  · intro cfg nos names net
    exact exactlyOne_postJson_pass _ _ _ _
  · intro cfg e lid act msg net
    unfold Deploy.update_leave_status
    by_cases hv : pyCapitalize act = "Approved" ∨ pyCapitalize act = "Rejected" ∨
        pyCapitalize act = "Revoked"
    · rw [if_pos hv]
      exact exactlyOne_postJson_pass _ _ _ _
    · rw [if_neg hv]
      exact Or.inl (Or.inl ⟨rfl, rfl⟩)
  · intro cfg e ln sd ed hd fh pd msg net
    unfold Deploy.apply_for_leave
    cases hp : parseYMD sd with
    | none => exact Or.inl (Or.inl ⟨rfl, rfl⟩)
    | some d1 =>
      cases hq : parseYMD ed with
      | none => exact Or.inl (Or.inl ⟨rfl, rfl⟩)
      | some d2 =>
        cases hv : validate_employee_id e with
        | true => exact exactlyOne_postJson_pass _ _ _ _
        | false => exact Or.inl (Or.inl ⟨rfl, rfl⟩)
  · intro cfg e yr cy net
    unfold Deploy.get_holiday_list
    cases hv : validate_employee_id e with
    | true => exact exactlyOne_postJson_pass _ _ _ _
    | false => exact Or.inl (Or.inl ⟨rfl, rfl⟩)
  · intro cfg e sd ed net
    unfold Deploy.get_leave_encashment_details
    cases hp : parseYMD sd with
    | none => exact Or.inl (Or.inl ⟨rfl, rfl⟩)
    | some d1 =>
      cases hq : parseYMD ed with
      | none => exact Or.inl (Or.inl ⟨rfl, rfl⟩)
      | some d2 =>
        cases hv : validate_employee_id e with
        | true => exact exactlyOne_postJson_pass _ _ _ _
        | false => exact Or.inl (Or.inl ⟨rfl, rfl⟩)
  · intro cfg e sd ed net
    unfold App.get_leave_report
    cases hp : parseYMD sd with
    | none => exact Or.inl (exactlyOne_appError _ _)
    | some d1 =>
      cases hq : parseYMD ed with
      | none => exact Or.inl (exactlyOne_appError _ _)
      | some d2 => exact exactlyOne_postJsonApp _ _ _ _
  · intro cfg ids net
    exact exactlyOne_postJsonApp _ _ _ _
  · intro cfg net
    exact exactlyOne_postJsonApp _ _ _ _
  · intro cfg ids fd td net
    exact exactlyOne_postJsonApp _ _ _ _

/-! ### C2 -/

/-- C2: per user turn, the dispatch loop executes at most one tool call;
when the first model reply carries no function-call name, no tool runs and
that reply's text is relayed; when it names a registered tool, exactly that
tool is invoked once with the model's arguments, its wrapped result is sent
back to the model exactly once, and the model's follow-up text is relayed;
when it names an unregistered tool, the KeyError path runs no tool and makes
no second model call. -/
theorem c2_single_tool_per_turn (registry : List (String × (Json → Json)))
    (oracle : ModelOracle) (prompt : String) :
    (runTurn registry oracle prompt).toolInvocations.length ≤ 1
    ∧ (oracle.first.fnName = "" →
        (runTurn registry oracle prompt).toolInvocations = []
        ∧ (runTurn registry oracle prompt).finalText = oracle.first.text
        ∧ (runTurn registry oracle prompt).sentToModel = [.userPrompt prompt])
    ∧ (∀ f, oracle.first.fnName ≠ "" →
        lookupTool registry oracle.first.fnName = some f →
        (runTurn registry oracle prompt).toolInvocations =
          [(oracle.first.fnName, oracle.first.fnArgs)]
        ∧ (runTurn registry oracle prompt).sentToModel =
          [.userPrompt prompt,
           .toolResponse oracle.first.fnName (.obj [("content", f oracle.first.fnArgs)])]
        ∧ (runTurn registry oracle prompt).finalText = oracle.afterTool)
    ∧ (oracle.first.fnName ≠ "" → lookupTool registry oracle.first.fnName = none →
        (runTurn registry oracle prompt).toolInvocations = []
        ∧ (runTurn registry oracle prompt).sentToModel = [.userPrompt prompt]) := by
  unfold runTurn
  by_cases h0 : oracle.first.fnName = ""
  · rw [if_neg (not_not_intro h0)]
    exact ⟨by simp, fun _ => ⟨rfl, rfl, rfl⟩,
      fun f hne _ => absurd h0 hne, fun hne _ => absurd h0 hne⟩
  · rw [if_pos h0]
    cases hl : lookupTool registry oracle.first.fnName with
    | some f =>
      refine ⟨by simp, fun h => absurd h h0, ?_, ?_⟩
      · intro f' _ hl'
        cases hl'
        exact ⟨rfl, rfl, rfl⟩
      · intro _ hl'
        cases hl'
    | none =>
      refine ⟨by simp, fun h => absurd h h0, ?_, fun _ _ => ⟨rfl, rfl⟩⟩
      intro f' _ hl'
      cases hl'

/-- C2 witness: a concrete turn in which the model requests the registered
tool; exactly that invocation is recorded and the follow-up text is the
final answer. -/
theorem c2_single_tool_per_turn_witness :
    (runTurn [("get_all_employees", fun _ => Json.obj [])]
        { first := { fnName := "get_all_employees", fnArgs := Json.obj [], text := "" },
          afterTool := "done" } "hi").toolInvocations =
      [("get_all_employees", Json.obj [])]
    ∧ (runTurn [("get_all_employees", fun _ => Json.obj [])]
        { first := { fnName := "get_all_employees", fnArgs := Json.obj [], text := "" },
          afterTool := "done" } "hi").finalText = "done" := by
  have h := (c2_single_tool_per_turn [("get_all_employees", fun _ => Json.obj [])]
      { first := { fnName := "get_all_employees", fnArgs := Json.obj [], text := "" },
        afterTool := "done" } "hi").2.2.1
    (fun _ => Json.obj []) (by decide) rfl
  exact ⟨h.1, h.2.2⟩

/-! ### C3 -/

/-- C3 counterexample.  The claim says every operation converts a non-2xx
response into an error envelope carrying the status code and the first ~500
characters of the response body.  app.py's `get_leave_report` returns only
the generic envelope: it has no `details` key and its value is identical for
two different response bodies, so the body excerpt is not carried. -/
theorem c3_http_error_counterexample :
    (App.get_leave_report testAppCfg "E1" "2025-01-01" "2025-01-02"
        (.err (.httpError 500 "BODY-A"))).result =
      (App.get_leave_report testAppCfg "E1" "2025-01-01" "2025-01-02"
        (.err (.httpError 500 "BODY-B"))).result
    ∧ ((App.get_leave_report testAppCfg "E1" "2025-01-01" "2025-01-02"
        (.err (.httpError 500 "BODY-A"))).result).getKey "details" = none
    ∧ isErrorEnvelope ((App.get_leave_report testAppCfg "E1" "2025-01-01" "2025-01-02"
        (.err (.httpError 500 "BODY-A"))).result) = true := by
  exact ⟨rfl, rfl, rfl⟩

/-- C3 (amended): no operation propagates an exception — every failure is
returned as data.  In deploy.py the HTTP-error envelope carries
`API Error: <status code>` plus the first 500 characters of the response
body under `details`, the timeout envelope is the distinct fixed value, and
the two are never equal; in app.py every failure collapses to the single
generic envelope, which is an error envelope but has no `details` key. -/
theorem c3_failure_envelopes :
    (∀ x, isErrorEnvelope (handle_api_error x) = true)
    ∧ (∀ code text, handle_api_error (.httpError code text) =
        .obj [("error", .str ("API Error: " ++ toString code)),
              ("details", .str (text.take 500))])
    ∧ (handle_api_error .timeout = .obj [("error", .str "API Error: Request timed out")])
    ∧ (∀ code text, handle_api_error (.httpError code text) ≠ handle_api_error .timeout)
    ∧ (∀ cfg ids fd td x,
        (Deploy.get_daily_attendance_roster cfg ids fd td (.err x)).result =
          handle_api_error x)
    ∧ (∀ cfg e sd ed d1 d2 x, parseYMD sd = some d1 → parseYMD ed = some d2 →
        validate_employee_id e = true →
        (Deploy.get_leave_report cfg e sd ed (.err x)).result = handle_api_error x)
    ∧ (∀ url p t x, (postJsonApp url p t (.err x)).result = appErrorEnvelope x url)
    ∧ (∀ x url, isErrorEnvelope (appErrorEnvelope x url) = true)
    ∧ (∀ x url, (appErrorEnvelope x url).getKey "details" = none)
    ∧ (∀ cfg e sd ed code t1 t2,
        App.get_leave_report cfg e sd ed (.err (.httpError code t1)) =
          App.get_leave_report cfg e sd ed (.err (.httpError code t2))) := by
  refine ⟨isErrorEnvelope_handle, fun code text => rfl, rfl, ?_, fun cfg ids fd td x => rfl,
    ?_, fun url p t x => rfl, fun x url => rfl, fun x url => rfl, ?_⟩
  · intro code text h
    simp [handle_api_error] at h
  · intro cfg e sd ed d1 d2 x h1 h2 h3
    unfold Deploy.get_leave_report
    rw [h1, h2, h3]
    rfl
  · intro cfg e sd ed code t1 t2
    unfold App.get_leave_report
    cases hp : parseYMD sd with
    | none => rfl
    | some d1 =>
      cases hq : parseYMD ed with
      | none => rfl
      | some d2 => rfl

/-- C3 witness: the leave-report tool at valid inputs with a timed-out
network call returns exactly the distinct timeout envelope. -/
theorem c3_failure_envelopes_witness :
    (Deploy.get_leave_report testCfg "E1" "2025-01-01" "2025-01-02"
        (.err .timeout)).result =
      .obj [("error", .str "API Error: Request timed out")] := by
  have h := c3_failure_envelopes.2.2.2.2.2.1 testCfg "E1" "2025-01-01" "2025-01-02"
    ⟨2025, 1, 1⟩ ⟨2025, 1, 2⟩ .timeout (by decide) (by decide) (by decide)
  rw [h]
  rfl

/-! ### C4 -/

/-- C4: `update_leave_status` treats `approved` / `APPROVED` / `Approved`
identically (`str.capitalize` normalises the case before the enum check),
and any action whose capitalisation is not one of `Approved` / `Rejected` /
`Revoked` yields a structured error envelope with zero network requests. -/
theorem c4_action_normalization :
    (∀ cfg e lid msg net,
      Deploy.update_leave_status cfg e lid "approved" msg net =
        Deploy.update_leave_status cfg e lid "APPROVED" msg net
      ∧ Deploy.update_leave_status cfg e lid "Approved" msg net =
        Deploy.update_leave_status cfg e lid "APPROVED" msg net)
    ∧ (∀ cfg e lid act msg net,
        pyCapitalize act ≠ "Approved" → pyCapitalize act ≠ "Rejected" →
        pyCapitalize act ≠ "Revoked" →
        (Deploy.update_leave_status cfg e lid act msg net).requests = []
        ∧ isErrorEnvelope (Deploy.update_leave_status cfg e lid act msg net).result
            = true) := by
  constructor
  · intro cfg e lid msg net
    exact ⟨rfl, rfl⟩
  · intro cfg e lid act msg net ha hr hv
    unfold Deploy.update_leave_status
    rw [if_neg (by rintro (h | h | h) <;> [exact ha h; exact hr h; exact hv h])]
    exact ⟨rfl, rfl⟩

/-- C4 witness: `cancelled` capitalises to `Cancelled`, which is rejected
with an error envelope and zero requests. -/
theorem c4_action_normalization_witness :
    (Deploy.update_leave_status testCfg "E1" "L1" "cancelled" "" (.ok .null)).requests = []
    ∧ isErrorEnvelope
        (Deploy.update_leave_status testCfg "E1" "L1" "cancelled" "" (.ok .null)).result
      = true :=
  c4_action_normalization.2 testCfg "E1" "L1" "cancelled" "" (.ok .null)
    (by decide) (by decide) (by decide)

/-! ### C5 -/

/-- C5: for any `month_year` that strict `%Y-%m` parsing rejects,
`get_monthly_attendance` returns the invalid-month error envelope and
issues zero network requests. -/
theorem c5_invalid_month (cfg : Config) (ids : List PyVal) (my : String)
    (net : HttpOutcome) (h : parseYM my = none) :
    (Deploy.get_monthly_attendance cfg ids my net).result =
      .obj [("error", .str "Invalid month_year format. Must be YYYY-MM.")]
    ∧ (Deploy.get_monthly_attendance cfg ids my net).requests = [] := by
  unfold Deploy.get_monthly_attendance
  rw [h]
  exact ⟨rfl, rfl⟩

/-- C5 witness: `2025-13` (month out of range) and `2025-10-05` (a trailing
day component) both fail the strict `%Y-%m` parse, and the tool returns the
error envelope with zero requests at the first of them. -/
theorem c5_invalid_month_witness :
    parseYM "2025-13" = none ∧ parseYM "2025-10-05" = none
    ∧ (Deploy.get_monthly_attendance testCfg [.s "E1"] "2025-13" (.ok .null)).result =
        .obj [("error", .str "Invalid month_year format. Must be YYYY-MM.")]
    ∧ (Deploy.get_monthly_attendance testCfg [.s "E1"] "2025-13" (.ok .null)).requests
        = [] := by
  have h := c5_invalid_month testCfg [.s "E1"] "2025-13" (.ok .null) (by decide)
  exact ⟨by decide, by decide, h.1, h.2⟩

/-! ### C6 -/

/-- C6 counterexample.  The claim asserts the round trip for every valid
`YYYY-MM-DD` string.  `0099-01-02` is one (strptime accepts a zero-padded
four-digit year), but glibc strftime renders year 99 as `99` with no
padding, so the conversion yields `02-01-99` — and the `%d-%m-%Y` re-parse,
whose `%Y` demands exactly four digits, rejects it. -/
theorem c6_date_roundtrip_counterexample :
    parseYMD "0099-01-02" = some ⟨99, 1, 2⟩
    ∧ convert_date_format "0099-01-02" = some "02-01-99"
    ∧ parseDMY "02-01-99" = none := by
  exact ⟨by decide, by decide, by decide⟩

/-- C6 (amended): for every string that parses as a valid `YYYY-MM-DD` date
whose year value is at least 1000 (so that the unpadded `%Y` output still
has four digits), `convert_date_format` produces the `DD-MM-YYYY` rendering
of that date, and re-parsing that output with `%d-%m-%Y` recovers exactly
the same calendar date; for year values below 1000 the round trip fails
(see the counterexample). -/
theorem c6_date_roundtrip (s : String) (d : Date) (h : parseYMD s = some d)
    (hy : 1000 ≤ d.year) :
    convert_date_format s = some (formatDMY d) ∧ parseDMY (formatDMY d) = some d := by
  obtain ⟨hy1, hy2, hm1, hm2, hd1, hd2, hdm⟩ := parseYMD_inv h
  refine ⟨?_, parseDMY_formatDMY hy2 hy hm1 hm2 hd1 hd2 hdm⟩
  unfold convert_date_format
  rw [h]
  rfl

/-- C6 witness: the leap day `2024-02-29` converts to `29-02-2024` and
re-parses to the same calendar date. -/
theorem c6_date_roundtrip_witness :
    convert_date_format "2024-02-29" = some "29-02-2024"
    ∧ parseDMY "29-02-2024" = some ⟨2024, 2, 29⟩ := by
  have h := c6_date_roundtrip "2024-02-29" ⟨2024, 2, 29⟩ (by decide) (by decide)
  have hf : formatDMY ⟨2024, 2, 29⟩ = "29-02-2024" := by decide
  rw [hf] at h
  exact h

/-! ### C7 -/

theorem validate_date_format_eq_false {s : String} (h : parseYMD s = none) :
    validate_date_format s = false := by
  unfold validate_date_format
  rw [h]
  rfl

theorem parseYMD_eq_none_of_validate_false {s : String}
    (h : validate_date_format s = false) : parseYMD s = none := by
  unfold validate_date_format at h
  cases hp : parseYMD s with
  | none => rfl
  | some d => simp [hp] at h

/-- C7 counterexample.  The claim says no operation ever issues a network
call carrying a malformed date argument.  `get_daily_attendance_roster`
(deploy.py) neither validates nor converts its dates: with the malformed
`not-a-date` (on which `validate_date_format` is false) it still issues its
POST, carrying the malformed value verbatim as `from_date`. -/
theorem c7_malformed_date_counterexample :
    validate_date_format "not-a-date" = false
    ∧ (Deploy.get_daily_attendance_roster testCfg [.s "E1"] "not-a-date" "2025-01-01"
        (.ok .null)).requests.map Request.payload =
      [Json.obj [("api_key", Json.str "k_daily_roster"),
                 ("emp_number_list", Json.arr [Json.str "E1"]),
                 ("from_date", Json.str "not-a-date"),
                 ("to_date", Json.str "2025-01-01")]] := by
  exact ⟨rfl, rfl⟩

/-- C7 (amended): `validate_date_format` is false on every string the
`%Y-%m-%d` parse rejects, and every operation that validates or converts its
date arguments — `get_leave_report`, `apply_for_leave`,
`get_leave_encashment_details`, `get_daily_attendance_status`,
`get_attendance_punches`, `get_timesheet_datewise`, `get_overtime_datewise`
(deploy.py) and `get_leave_report` (app.py) — returns an error envelope with
zero network requests when a date argument is malformed.
`get_daily_attendance_roster` (deploy.py) and `get_attendance_report`
(app.py) are the exceptions: they forward date arguments to the remote API
without any check (see the counterexample). -/
theorem c7_malformed_dates :
    (∀ s, parseYMD s = none → validate_date_format s = false)
    ∧ (∀ cfg e sd ed net,
        validate_date_format sd = false ∨ validate_date_format ed = false →
        (Deploy.get_leave_report cfg e sd ed net).requests = []
        ∧ isErrorEnvelope (Deploy.get_leave_report cfg e sd ed net).result = true)
    ∧ (∀ cfg e ln sd ed hd fh pd msg net,
        validate_date_format sd = false ∨ validate_date_format ed = false →
        (Deploy.apply_for_leave cfg e ln sd ed hd fh pd msg net).requests = []
        ∧ isErrorEnvelope
            (Deploy.apply_for_leave cfg e ln sd ed hd fh pd msg net).result = true)
    ∧ (∀ cfg e sd ed net,
        validate_date_format sd = false ∨ validate_date_format ed = false →
        (Deploy.get_leave_encashment_details cfg e sd ed net).requests = []
        ∧ isErrorEnvelope
            (Deploy.get_leave_encashment_details cfg e sd ed net).result = true)
    ∧ (∀ cfg ids date net, validate_date_format date = false →
        (Deploy.get_daily_attendance_status cfg ids date net).requests = []
        ∧ isErrorEnvelope
            (Deploy.get_daily_attendance_status cfg ids date net).result = true)
    ∧ (∀ cfg ids fd td net,
        validate_date_format fd = false ∨ validate_date_format td = false →
        (Deploy.get_attendance_punches cfg ids fd td net).requests = []
        ∧ isErrorEnvelope (Deploy.get_attendance_punches cfg ids fd td net).result = true)
    ∧ (∀ cfg ids fd td net,
        validate_date_format fd = false ∨ validate_date_format td = false →
        (Deploy.get_timesheet_datewise cfg ids fd td net).requests = []
        ∧ isErrorEnvelope (Deploy.get_timesheet_datewise cfg ids fd td net).result = true)
    ∧ (∀ cfg ids fd td net,
        validate_date_format fd = false ∨ validate_date_format td = false →
        (Deploy.get_overtime_datewise cfg ids fd td net).requests = []
        ∧ isErrorEnvelope (Deploy.get_overtime_datewise cfg ids fd td net).result = true)
    ∧ (∀ cfg e sd ed net,
        validate_date_format sd = false ∨ validate_date_format ed = false →
        (App.get_leave_report cfg e sd ed net).requests = []
        ∧ isErrorEnvelope (App.get_leave_report cfg e sd ed net).result = true) := by
  refine ⟨fun s h => validate_date_format_eq_false h, ?_, ?_, ?_, ?_, ?_, ?_, ?_, ?_⟩
  · intro cfg e sd ed net h
    unfold Deploy.get_leave_report
    rcases h with h | h
    · rw [parseYMD_eq_none_of_validate_false h]
      exact ⟨rfl, rfl⟩
    · cases hp : parseYMD sd with
      | none => exact ⟨rfl, rfl⟩
      | some d1 =>
        rw [parseYMD_eq_none_of_validate_false h]
        exact ⟨rfl, rfl⟩
  · intro cfg e ln sd ed hd fh pd msg net h
    unfold Deploy.apply_for_leave
    rcases h with h | h
    · rw [parseYMD_eq_none_of_validate_false h]
      exact ⟨rfl, rfl⟩
    · cases hp : parseYMD sd with
      | none => exact ⟨rfl, rfl⟩
      | some d1 =>
        rw [parseYMD_eq_none_of_validate_false h]
        exact ⟨rfl, rfl⟩
  · intro cfg e sd ed net h
    unfold Deploy.get_leave_encashment_details
    rcases h with h | h
    · rw [parseYMD_eq_none_of_validate_false h]
      exact ⟨rfl, rfl⟩
    · cases hp : parseYMD sd with
      | none => exact ⟨rfl, rfl⟩
      | some d1 =>
        rw [parseYMD_eq_none_of_validate_false h]
        exact ⟨rfl, rfl⟩
  · intro cfg ids date net h
    unfold Deploy.get_daily_attendance_status
    rw [parseYMD_eq_none_of_validate_false h]
    exact ⟨rfl, rfl⟩
  · intro cfg ids fd td net h
    unfold Deploy.get_attendance_punches
    rcases h with h | h
    · rw [parseYMD_eq_none_of_validate_false h]
      exact ⟨rfl, rfl⟩
    · cases hp : parseYMD fd with
      | none => exact ⟨rfl, rfl⟩
      | some d1 =>
        rw [parseYMD_eq_none_of_validate_false h]
        exact ⟨rfl, rfl⟩
  · intro cfg ids fd td net h
    unfold Deploy.get_timesheet_datewise
    rcases h with h | h
    · rw [parseYMD_eq_none_of_validate_false h]
      exact ⟨rfl, rfl⟩
    · cases hp : parseYMD fd with
      | none => exact ⟨rfl, rfl⟩
      | some d1 =>
        rw [parseYMD_eq_none_of_validate_false h]
        exact ⟨rfl, rfl⟩
  · intro cfg ids fd td net h
    unfold Deploy.get_overtime_datewise
    rcases h with h | h
    · rw [parseYMD_eq_none_of_validate_false h]
      exact ⟨rfl, rfl⟩
    · cases hp : parseYMD fd with
      | none => exact ⟨rfl, rfl⟩
      | some d1 =>
        rw [parseYMD_eq_none_of_validate_false h]
        exact ⟨rfl, rfl⟩
  · intro cfg e sd ed net h
    unfold App.get_leave_report
    rcases h with h | h
    · rw [parseYMD_eq_none_of_validate_false h]
      exact ⟨rfl, rfl⟩
    · cases hp : parseYMD sd with
      | none => exact ⟨rfl, rfl⟩
      | some d1 =>
        rw [parseYMD_eq_none_of_validate_false h]
        exact ⟨rfl, rfl⟩

/-- C7 witness: `2025-02-30` is not a calendar date, so the leave-report
tool rejects it with an error envelope and zero requests. -/
theorem c7_malformed_dates_witness :
    (Deploy.get_leave_report testCfg "E1" "2025-02-30" "2025-03-01" (.ok .null)).requests
      = []
    ∧ isErrorEnvelope (Deploy.get_leave_report testCfg "E1" "2025-02-30" "2025-03-01"
        (.ok .null)).result = true :=
  c7_malformed_dates.2.1 testCfg "E1" "2025-02-30" "2025-03-01" (.ok .null)
    (Or.inl (by decide))

/-! ### C8 -/

/-- C8 counterexample.  The claim says every operation trims employee
identifiers before placing them in the outbound payload.  app.py's
`get_attendance_report` forwards its identifier list untouched: with the
padded identifier `" E1 "` the issued payload carries `" E1 "`, not its
stripped form `"E1"`. -/
theorem c8_trimming_counterexample :
    (App.get_attendance_report testAppCfg [.s " E1 "] "2025-01-01" "2025-01-02"
        (.ok .null)).requests.map Request.payload =
      [Json.obj [("api_key", Json.str "k_attendance"),
                 ("emp_number_list", Json.arr [Json.str " E1 "]),
                 ("from_date", Json.str "2025-01-01"),
                 ("to_date", Json.str "2025-01-02")]]
    ∧ pyStrip " E1 " = "E1" ∧ " E1 " ≠ "E1" := by
  exact ⟨rfl, by decide, by decide⟩

/-- C8 (amended): every deploy.py operation strips its employee identifiers
before placing them in the payload, applying `str()` element-wise to list
elements first, and app.py's `get_leave_report` strips its single
identifier; but app.py's `get_employee_info` and `get_attendance_report`
place their identifier lists in the payload as supplied, with neither
coercion nor strip. -/
theorem c8_identifier_handling :
    (∀ cfg nos names net, ∀ r ∈ (Deploy.get_leave_balance cfg nos names net).requests,
      r.payload.getKey "employee_nos" =
        some (.arr (nos.map fun v => .str (pyStrip (pyStr v)))))
    ∧ (∀ cfg ids date net,
        ∀ r ∈ (Deploy.get_daily_attendance_status cfg ids date net).requests,
        r.payload.getKey "emp-number_list" =
          some (.arr (ids.map fun v => .str (pyStrip (pyStr v)))))
    ∧ (∀ cfg ids fd td net,
        ∀ r ∈ (Deploy.get_daily_attendance_roster cfg ids fd td net).requests,
        r.payload.getKey "emp_number_list" =
          some (.arr (ids.map fun v => .str (pyStrip (pyStr v)))))
    ∧ (∀ cfg ids fd td net,
        ∀ r ∈ (Deploy.get_attendance_punches cfg ids fd td net).requests,
        r.payload.getKey "emp_number_list" =
          some (.arr (ids.map fun v => .str (pyStrip (pyStr v)))))
    ∧ (∀ cfg ids my net, ∀ r ∈ (Deploy.get_monthly_attendance cfg ids my net).requests,
        r.payload.getKey "emp_number_list" =
          some (.arr (ids.map fun v => .str (pyStrip (pyStr v)))))
    ∧ (∀ cfg ids fd td net,
        ∀ r ∈ (Deploy.get_timesheet_datewise cfg ids fd td net).requests,
        r.payload.getKey "emp_number_list" =
          some (.arr (ids.map fun v => .str (pyStrip (pyStr v)))))
    ∧ (∀ cfg ids fd td net,
        ∀ r ∈ (Deploy.get_overtime_datewise cfg ids fd td net).requests,
        r.payload.getKey "emp_number_list" =
          some (.arr (ids.map fun v => .str (pyStrip (pyStr v)))))
    ∧ (∀ cfg e sd ed net, ∀ r ∈ (Deploy.get_leave_report cfg e sd ed net).requests,
        r.payload.getKey "employee_no" = some (.arr [.str (pyStrip e)]))
    ∧ (∀ cfg e lid act msg net,
        ∀ r ∈ (Deploy.update_leave_status cfg e lid act msg net).requests,
        r.payload.getKey "employee_no" = some (.str (pyStrip e)))
    ∧ (∀ cfg e ln sd ed hd fh pd msg net,
        ∀ r ∈ (Deploy.apply_for_leave cfg e ln sd ed hd fh pd msg net).requests,
        ∃ rec, r.payload.getKey "data" = some (.arr [rec])
          ∧ rec.getKey "employee_no" = some (.str (pyStrip e)))
    ∧ (∀ cfg e yr cy net, ∀ r ∈ (Deploy.get_holiday_list cfg e yr cy net).requests,
        r.payload.getKey "employee_no" = some (.str (pyStrip e)))
    ∧ (∀ cfg e sd ed net,
        ∀ r ∈ (Deploy.get_leave_encashment_details cfg e sd ed net).requests,
        r.payload.getKey "employee_no" = some (.arr [.str (pyStrip e)]))
    ∧ (∀ cfg e sd ed net, ∀ r ∈ (App.get_leave_report cfg e sd ed net).requests,
        r.payload.getKey "employee_no" = some (.arr [.str (pyStrip e)]))
    ∧ (∀ cfg ids net, ∀ r ∈ (App.get_employee_info cfg ids net).requests,
        r.payload.getKey "employee_ids" = some (.arr (ids.map pyValJson)))
    ∧ (∀ cfg ids fd td net,
        ∀ r ∈ (App.get_attendance_report cfg ids fd td net).requests,
        r.payload.getKey "emp_number_list" = some (.arr (ids.map pyValJson))) := by
  refine ⟨?_, ?_, ?_, ?_, ?_, ?_, ?_, ?_, ?_, ?_, ?_, ?_, ?_, ?_, ?_⟩
  · intro cfg nos names net r hr
    simp only [Deploy.get_leave_balance, postJson, List.mem_singleton] at hr
    subst hr
    rfl
  · intro cfg ids date net r hr
    unfold Deploy.get_daily_attendance_status at hr
    cases hp : parseYMD date with
    | none => rw [hp] at hr; simp [invalidParamsResult] at hr
    | some d =>
      rw [hp] at hr
      simp only [postJson, List.mem_singleton] at hr
      subst hr
      rfl
  · intro cfg ids fd td net r hr
    simp only [Deploy.get_daily_attendance_roster, postJson, List.mem_singleton] at hr
    subst hr
    rfl
  · intro cfg ids fd td net r hr
    unfold Deploy.get_attendance_punches at hr
    cases hp : parseYMD fd with
    | none => rw [hp] at hr; simp [invalidParamsResult] at hr
    | some d1 =>
      cases hq : parseYMD td with
      | none => rw [hp, hq] at hr; simp [invalidParamsResult] at hr
      | some d2 =>
        rw [hp, hq] at hr
        simp only [postJson, List.mem_singleton] at hr
        subst hr
        rfl
  · intro cfg ids my net r hr
    unfold Deploy.get_monthly_attendance at hr
    cases hp : parseYM my with
    | none => rw [hp] at hr; simp [invalidParamsResult] at hr
    | some p =>
      rw [hp] at hr
      simp only [postJson, List.mem_singleton] at hr
      subst hr
      rfl
  · intro cfg ids fd td net r hr
    unfold Deploy.get_timesheet_datewise at hr
    cases hp : parseYMD fd with
    | none => rw [hp] at hr; simp [invalidParamsResult] at hr
    | some d1 =>
      cases hq : parseYMD td with
      | none => rw [hp, hq] at hr; simp [invalidParamsResult] at hr
      | some d2 =>
        rw [hp, hq] at hr
        simp only [postJson, List.mem_singleton] at hr
        subst hr
        rfl
  · intro cfg ids fd td net r hr
    unfold Deploy.get_overtime_datewise at hr
    cases hp : parseYMD fd with
    | none => rw [hp] at hr; simp [invalidParamsResult] at hr
    | some d1 =>
      cases hq : parseYMD td with
      | none => rw [hp, hq] at hr; simp [invalidParamsResult] at hr
      | some d2 =>
        rw [hp, hq] at hr
        simp only [postJson, List.mem_singleton] at hr
        subst hr
        rfl
  · intro cfg e sd ed net r hr
    unfold Deploy.get_leave_report at hr
    cases hp : parseYMD sd with
    | none => rw [hp] at hr; simp [invalidParamsResult] at hr
    | some d1 =>
      cases hq : parseYMD ed with
      | none => rw [hp, hq] at hr; simp [invalidParamsResult] at hr
      | some d2 =>
        rw [hp, hq] at hr
        cases hv : validate_employee_id e with
        | false => rw [hv] at hr; simp [invalidParamsResult] at hr
        | true =>
          rw [hv] at hr
          simp only [if_true, postJson, List.mem_singleton] at hr
          subst hr
          rfl
  · intro cfg e lid act msg net r hr
    unfold Deploy.update_leave_status at hr
    by_cases hv : pyCapitalize act = "Approved" ∨ pyCapitalize act = "Rejected" ∨
        pyCapitalize act = "Revoked"
    · rw [if_pos hv] at hr
      simp only [postJson, List.mem_singleton] at hr
      subst hr
      rfl
    · rw [if_neg hv] at hr
      simp at hr
  · intro cfg e ln sd ed hd fh pd msg net r hr
    unfold Deploy.apply_for_leave at hr
    cases hp : parseYMD sd with
    | none => rw [hp] at hr; simp [invalidParamsResult] at hr
    | some d1 =>
      cases hq : parseYMD ed with
      | none => rw [hp, hq] at hr; simp [invalidParamsResult] at hr
      | some d2 =>
        rw [hp, hq] at hr
        cases hv : validate_employee_id e with
        | false => rw [hv] at hr; simp [invalidParamsResult] at hr
        | true =>
          rw [hv] at hr
          simp only [if_true, postJson, List.mem_singleton] at hr
          subst hr
          exact ⟨Deploy.apply_leave_record e ln msg d1 d2 hd fh pd, rfl, rfl⟩
  · intro cfg e yr cy net r hr
    unfold Deploy.get_holiday_list at hr
    cases hv : validate_employee_id e with
    | false => rw [hv] at hr; simp [invalidParamsResult] at hr
    | true =>
      rw [hv] at hr
      simp only [if_true, postJson, List.mem_singleton] at hr
      subst hr
      rfl
  · intro cfg e sd ed net r hr
    unfold Deploy.get_leave_encashment_details at hr
    cases hp : parseYMD sd with
    | none => rw [hp] at hr; simp [invalidParamsResult] at hr
    | some d1 =>
      cases hq : parseYMD ed with
      | none => rw [hp, hq] at hr; simp [invalidParamsResult] at hr
      | some d2 =>
        rw [hp, hq] at hr
        cases hv : validate_employee_id e with
        | false => rw [hv] at hr; simp [invalidParamsResult] at hr
        | true =>
          rw [hv] at hr
          simp only [if_true, postJson, List.mem_singleton] at hr
          subst hr
          rfl
  · intro cfg e sd ed net r hr
    unfold App.get_leave_report at hr
    cases hp : parseYMD sd with
    | none => rw [hp] at hr; simp [invalidParamsResult] at hr
    | some d1 =>
      cases hq : parseYMD ed with
      | none => rw [hp, hq] at hr; simp [invalidParamsResult] at hr
      | some d2 =>
        rw [hp, hq] at hr
        simp only [postJsonApp, List.mem_singleton] at hr
        subst hr
        rfl
  · intro cfg ids net r hr
    simp only [App.get_employee_info, postJsonApp, List.mem_singleton] at hr
    subst hr
    rfl
  · intro cfg ids fd td net r hr
    simp only [App.get_attendance_report, postJsonApp, List.mem_singleton] at hr
    subst hr
    rfl

/-- C8 witness: the leave-balance tool at a padded string identifier and an
integer identifier — the payload carries the stripped string coercions. -/
theorem c8_identifier_handling_witness :
    (Request.mk "https://hr.example.com/leavesactionapi/leavebalance"
      (Json.obj [("api_key", Json.str "k_balance"), ("ignore_rounding", Json.str "1"),
                 ("employee_nos", Json.arr [Json.str "E1", Json.str "7"]),
                 ("leave_names", Json.arr [])]) 30).payload.getKey "employee_nos" =
      some (Json.arr [Json.str "E1", Json.str "7"]) := by
  have h := c8_identifier_handling.1 testCfg [.s " E1 ", .i 7] none (.ok .null)
    (Request.mk "https://hr.example.com/leavesactionapi/leavebalance"
      (Json.obj [("api_key", Json.str "k_balance"), ("ignore_rounding", Json.str "1"),
                 ("employee_nos", Json.arr [Json.str "E1", Json.str "7"]),
                 ("leave_names", Json.arr [])]) 30)
    (List.mem_singleton.mpr rfl)
  exact h

/-! ### C9 -/

/-- C9 counterexample.  The claim says the employee-info fetch uses a
timeout longer than the general 30 seconds; app.py's `get_employee_info`
posts with a 15-second timeout, which is not longer than 30. -/
theorem c9_timeout_counterexample :
    (App.get_employee_info testAppCfg [.s "E1"] (.ok .null)).requests.map
      Request.timeout = [15]
    ∧ ¬ (30 < 15) := by
  exact ⟨rfl, by decide⟩

/-- C9 (amended): every issued POST carries a fixed timeout between 15 and
60 seconds: 30 for every operation except the two full-directory fetches
(`get_all_employees`, 60 seconds in both files) and app.py's
`get_employee_info`, which uses 15 seconds — shorter, not longer, than the
general 30. -/
theorem c9_timeouts :
    (∀ cfg e sd ed net, ∀ r ∈ (Deploy.get_leave_report cfg e sd ed net).requests,
      r.timeout = 30)
    ∧ (∀ cfg nos names net, ∀ r ∈ (Deploy.get_leave_balance cfg nos names net).requests,
      r.timeout = 30)
    ∧ (∀ cfg e lid act msg net,
      ∀ r ∈ (Deploy.update_leave_status cfg e lid act msg net).requests, r.timeout = 30)
    ∧ (∀ cfg e ln sd ed hd fh pd msg net,
      ∀ r ∈ (Deploy.apply_for_leave cfg e ln sd ed hd fh pd msg net).requests,
      r.timeout = 30)
    ∧ (∀ cfg e yr cy net, ∀ r ∈ (Deploy.get_holiday_list cfg e yr cy net).requests,
      r.timeout = 30)
    ∧ (∀ cfg e sd ed net,
      ∀ r ∈ (Deploy.get_leave_encashment_details cfg e sd ed net).requests,
      r.timeout = 30)
    ∧ (∀ cfg ids date net,
      ∀ r ∈ (Deploy.get_daily_attendance_status cfg ids date net).requests,
      r.timeout = 30)
    ∧ (∀ cfg ids fd td net,
      ∀ r ∈ (Deploy.get_daily_attendance_roster cfg ids fd td net).requests,
      r.timeout = 30)
    ∧ (∀ cfg ids fd td net,
      ∀ r ∈ (Deploy.get_attendance_punches cfg ids fd td net).requests, r.timeout = 30)
    ∧ (∀ cfg ids my net, ∀ r ∈ (Deploy.get_monthly_attendance cfg ids my net).requests,
      r.timeout = 30)
    ∧ (∀ cfg ids fd td net,
      ∀ r ∈ (Deploy.get_timesheet_datewise cfg ids fd td net).requests, r.timeout = 30)
    ∧ (∀ cfg ids fd td net,
      ∀ r ∈ (Deploy.get_overtime_datewise cfg ids fd td net).requests, r.timeout = 30)
    ∧ (∀ cfg net, ∀ r ∈ (Deploy.get_all_employees cfg net).requests, r.timeout = 60)
    ∧ (∀ cfg e sd ed net, ∀ r ∈ (App.get_leave_report cfg e sd ed net).requests,
      r.timeout = 30)
    ∧ (∀ cfg ids net, ∀ r ∈ (App.get_employee_info cfg ids net).requests, r.timeout = 15)
    ∧ (∀ cfg net, ∀ r ∈ (App.get_all_employees cfg net).requests, r.timeout = 60)
    ∧ (∀ cfg ids fd td net,
      ∀ r ∈ (App.get_attendance_report cfg ids fd td net).requests, r.timeout = 30) := by
  refine ⟨?_, ?_, ?_, ?_, ?_, ?_, ?_, ?_, ?_, ?_, ?_, ?_, ?_, ?_, ?_, ?_, ?_⟩
  · intro cfg e sd ed net r hr
    unfold Deploy.get_leave_report at hr
    cases hp : parseYMD sd with
    | none => rw [hp] at hr; simp [invalidParamsResult] at hr
    | some d1 =>
      cases hq : parseYMD ed with
      | none => rw [hp, hq] at hr; simp [invalidParamsResult] at hr
      | some d2 =>
        rw [hp, hq] at hr
        cases hv : validate_employee_id e with
        | false => rw [hv] at hr; simp [invalidParamsResult] at hr
        | true =>
          rw [hv] at hr
          simp only [if_true, postJson, List.mem_singleton] at hr
          subst hr
          rfl
  · intro cfg nos names net r hr
    simp only [Deploy.get_leave_balance, postJson, List.mem_singleton] at hr
    subst hr
    rfl
  · intro cfg e lid act msg net r hr
    unfold Deploy.update_leave_status at hr
    by_cases hv : pyCapitalize act = "Approved" ∨ pyCapitalize act = "Rejected" ∨
        pyCapitalize act = "Revoked"
    · rw [if_pos hv] at hr
      simp only [postJson, List.mem_singleton] at hr
      subst hr
      rfl
    · rw [if_neg hv] at hr
      simp at hr
  · intro cfg e ln sd ed hd fh pd msg net r hr
    unfold Deploy.apply_for_leave at hr
    cases hp : parseYMD sd with
    | none => rw [hp] at hr; simp [invalidParamsResult] at hr
    | some d1 =>
      cases hq : parseYMD ed with
      | none => rw [hp, hq] at hr; simp [invalidParamsResult] at hr
      | some d2 =>
        rw [hp, hq] at hr
        cases hv : validate_employee_id e with
        | false => rw [hv] at hr; simp [invalidParamsResult] at hr
        | true =>
          rw [hv] at hr
          simp only [if_true, postJson, List.mem_singleton] at hr
          subst hr
          rfl
  · intro cfg e yr cy net r hr
    unfold Deploy.get_holiday_list at hr
    cases hv : validate_employee_id e with
    | false => rw [hv] at hr; simp [invalidParamsResult] at hr
    | true =>
      rw [hv] at hr
      simp only [if_true, postJson, List.mem_singleton] at hr
      subst hr
      rfl
  · intro cfg e sd ed net r hr
    unfold Deploy.get_leave_encashment_details at hr
    cases hp : parseYMD sd with
    | none => rw [hp] at hr; simp [invalidParamsResult] at hr
    | some d1 =>
      cases hq : parseYMD ed with
      | none => rw [hp, hq] at hr; simp [invalidParamsResult] at hr
      | some d2 =>
        rw [hp, hq] at hr
        cases hv : validate_employee_id e with
        | false => rw [hv] at hr; simp [invalidParamsResult] at hr
        | true =>
          rw [hv] at hr
          simp only [if_true, postJson, List.mem_singleton] at hr
          subst hr
          rfl
  · intro cfg ids date net r hr
    unfold Deploy.get_daily_attendance_status at hr
    cases hp : parseYMD date with
    | none => rw [hp] at hr; simp [invalidParamsResult] at hr
    | some d =>
      rw [hp] at hr
      simp only [postJson, List.mem_singleton] at hr
      subst hr
      rfl
  · intro cfg ids fd td net r hr
    simp only [Deploy.get_daily_attendance_roster, postJson, List.mem_singleton] at hr
    subst hr
    rfl
  · intro cfg ids fd td net r hr
    unfold Deploy.get_attendance_punches at hr
    cases hp : parseYMD fd with
    | none => rw [hp] at hr; simp [invalidParamsResult] at hr
    | some d1 =>
      cases hq : parseYMD td with
      | none => rw [hp, hq] at hr; simp [invalidParamsResult] at hr
      | some d2 =>
        rw [hp, hq] at hr
        simp only [postJson, List.mem_singleton] at hr
        subst hr
        rfl
  · intro cfg ids my net r hr
    unfold Deploy.get_monthly_attendance at hr
    cases hp : parseYM my with
    | none => rw [hp] at hr; simp [invalidParamsResult] at hr
    | some p =>
      rw [hp] at hr
      simp only [postJson, List.mem_singleton] at hr
      subst hr
      rfl
  · intro cfg ids fd td net r hr
    unfold Deploy.get_timesheet_datewise at hr
    cases hp : parseYMD fd with
    | none => rw [hp] at hr; simp [invalidParamsResult] at hr
    | some d1 =>
      cases hq : parseYMD td with
      | none => rw [hp, hq] at hr; simp [invalidParamsResult] at hr
      | some d2 =>
        rw [hp, hq] at hr
        simp only [postJson, List.mem_singleton] at hr
        subst hr
        rfl
  · intro cfg ids fd td net r hr
    unfold Deploy.get_overtime_datewise at hr
    cases hp : parseYMD fd with
    | none => rw [hp] at hr; simp [invalidParamsResult] at hr
    | some d1 =>
      cases hq : parseYMD td with
      | none => rw [hp, hq] at hr; simp [invalidParamsResult] at hr
      | some d2 =>
        rw [hp, hq] at hr
        simp only [postJson, List.mem_singleton] at hr
        subst hr
        rfl
  · intro cfg net r hr
    simp only [Deploy.get_all_employees, postJson, List.mem_singleton] at hr
    subst hr
    rfl
  · intro cfg e sd ed net r hr
    unfold App.get_leave_report at hr
    cases hp : parseYMD sd with
    | none => rw [hp] at hr; simp [invalidParamsResult] at hr
    | some d1 =>
      cases hq : parseYMD ed with
      | none => rw [hp, hq] at hr; simp [invalidParamsResult] at hr
      | some d2 =>
        rw [hp, hq] at hr
        simp only [postJsonApp, List.mem_singleton] at hr
        subst hr
        rfl
  · intro cfg ids net r hr
    simp only [App.get_employee_info, postJsonApp, List.mem_singleton] at hr
    subst hr
    rfl
  · intro cfg net r hr
    simp only [App.get_all_employees, postJsonApp, List.mem_singleton] at hr
    subst hr
    rfl
  · intro cfg ids fd td net r hr
    simp only [App.get_attendance_report, postJsonApp, List.mem_singleton] at hr
    subst hr
    rfl

/-- C9 witness: the employee-info fetch at a concrete input issues its one
request with the 15-second timeout. -/
theorem c9_timeouts_witness :
    (Request.mk "https://hr.example.com/masterapi/employee"
      (Json.obj [("api_key", Json.str "k_emp"), ("datasetKey", Json.str "k_dataset"),
                 ("employee_ids", Json.arr [Json.str "E1"])]) 15).timeout = 15 := by
  have h := c9_timeouts.2.2.2.2.2.2.2.2.2.2.2.2.2.2.1 testAppCfg [.s "E1"] (.ok .null)
    (Request.mk "https://hr.example.com/masterapi/employee"
      (Json.obj [("api_key", Json.str "k_emp"), ("datasetKey", Json.str "k_dataset"),
                 ("employee_ids", Json.arr [Json.str "E1"])]) 15)
    (List.mem_singleton.mpr rfl)
  exact h

/-! ### C10 -/

/-- C10: for valid inputs, `apply_for_leave` sends exactly one leave record,
wrapped in a one-element `data` array; the record carries
`is_firsthalf_secondhalf` iff `is_half_day` (with value `"1"` when
`is_first_half`, `"2"` otherwise), encodes `is_half_day` as `yes`/`no` and
`is_paid` as `paid`/`unpaid`, and always sets `revoke_leave` to `no`. -/
theorem c10_apply_leave_payload (cfg : Config) (e ln sd ed : String)
    (hd fh pd : Bool) (msg : String) (net : HttpOutcome) (d1 d2 : Date)
    (h1 : parseYMD sd = some d1) (h2 : parseYMD ed = some d2)
    (h3 : validate_employee_id e = true) :
    (Deploy.apply_for_leave cfg e ln sd ed hd fh pd msg net).requests.map
        Request.payload =
      [.obj [("api_key", .str cfg.leaveImportKey),
             ("data", .arr [Deploy.apply_leave_record e ln msg d1 d2 hd fh pd])]]
    ∧ (Deploy.apply_leave_record e ln msg d1 d2 hd fh pd).getKey
        "is_firsthalf_secondhalf" =
        (if hd then some (.str (if fh then "1" else "2")) else none)
    ∧ (Deploy.apply_leave_record e ln msg d1 d2 hd fh pd).getKey "is_half_day" =
        some (.str (if hd then "yes" else "no"))
    ∧ (Deploy.apply_leave_record e ln msg d1 d2 hd fh pd).getKey "is_paid_or_unpaid" =
        some (.str (if pd then "paid" else "unpaid"))
    ∧ (Deploy.apply_leave_record e ln msg d1 d2 hd fh pd).getKey "revoke_leave" =
        some (.str "no")
    ∧ (Deploy.apply_leave_record e ln msg d1 d2 hd fh pd).getKey "from_date" =
        some (.str (formatDMY d1))
    ∧ (Deploy.apply_leave_record e ln msg d1 d2 hd fh pd).getKey "to_date" =
        some (.str (formatDMY d2)) := by
  refine ⟨?_, ?_, rfl, rfl, rfl, rfl, rfl⟩
  · unfold Deploy.apply_for_leave
    rw [h1, h2, h3]
    rfl
  · cases hd <;> rfl

/-- C10 witness: a concrete half-day application with `is_first_half`
false — the one issued payload wraps the single record, whose half-day
selector is `"2"`. -/
theorem c10_apply_leave_payload_witness :
    (Deploy.apply_for_leave testCfg "E1" "Casual Leave" "2025-01-01" "2025-01-02"
        true false true "Applied via AI" (.ok .null)).requests.map Request.payload =
      [Json.obj [("api_key", Json.str "k_import"),
                 ("data", Json.arr [Deploy.apply_leave_record "E1" "Casual Leave"
                   "Applied via AI" ⟨2025, 1, 1⟩ ⟨2025, 1, 2⟩ true false true])]]
    ∧ (Deploy.apply_leave_record "E1" "Casual Leave" "Applied via AI"
        ⟨2025, 1, 1⟩ ⟨2025, 1, 2⟩ true false true).getKey "is_firsthalf_secondhalf" =
      some (Json.str "2") := by
  have h := c10_apply_leave_payload testCfg "E1" "Casual Leave" "2025-01-01"
    "2025-01-02" true false true "Applied via AI" (.ok .null) ⟨2025, 1, 1⟩ ⟨2025, 1, 2⟩
    (by decide) (by decide) (by decide)
  exact ⟨h.1, h.2.1⟩
